import Mathlib

/-!
Verification of the tab-image-gen-poc repository: a shallow embedding of

* src/shared/schema.ts (resp. src/unnamed/part_000): the zod validation
  schemas `textPositionSchema`, `textConfigSchema`, `adContentSchema`;
* src/server/storage.ts: `DatabaseStorage` (text-position configs and
  ad contents over a relational store, modelled as in-memory lists of rows
  with a serial id counter and an explicit clock for timestamps);
* the Express routes registered by `registerRoutes`
  (src/client/src/components/shared-canvas.tsx, second embedded file);
* the canvas compositor `CanvasRenderer` of src/unnamed/part_001
  (the config-driven variant), with the 2D context modelled as an
  append-only list of draw operations.

JavaScript numbers are modelled as `Int` (all constants involved are
integers); `Date` timestamps as `Nat` supplied by the caller as `now`.
-/

/-! ## Schema (src/shared/schema.ts) -/

/-- One character of the class `[0-9a-fA-F]` in the zod color regex. -/
def isHexDigit (c : Char) : Bool :=
  c.isDigit || ('a' ≤ c && c ≤ 'f') || ('A' ≤ c && c ≤ 'F')

/-- The zod check `z.string().regex(/^#[0-9a-fA-F]\x7b6\x7d$/)`:
a `#` followed by exactly six hex digits, nothing else. -/
def colorValid (s : String) : Bool :=
  match s.data with
  | '#' :: rest => rest.length == 6 && rest.all isHexDigit
  | _ => false

/-- The object shape of `textPositionSchema`.  `left` and `center` are
optional in the schema, hence `Option Int` here. `alignment` is kept as a
raw string; the schema's `z.enum(["left", "center"])` membership check
lives in `textPositionValid`. -/
structure TextPosition where
  bottom : Int
  left : Option Int
  center : Option Int
  alignment : String
  fontFamily : String
  fontSize : Int
  color : String
deriving Repr, DecidableEq

/-- `textPositionSchema.safeParse` on a value of the right shape:
`bottom ≥ 0`, optional `left`/`center` each `≥ 0` when present,
`alignment ∈ \x7bleft, center\x7d`, `fontSize ∈ [8, 300]`, color regex. -/
def textPositionValid (p : TextPosition) : Bool :=
  decide (0 ≤ p.bottom) &&
  (match p.left with | none => true | some l => decide (0 ≤ l)) &&
  (match p.center with | none => true | some c => decide (0 ≤ c)) &&
  (p.alignment == "left" || p.alignment == "center") &&
  decide (8 ≤ p.fontSize) && decide (p.fontSize ≤ 300) &&
  colorValid p.color

/-- The object shape of `textConfigSchema`: exactly the five fixed keys. -/
structure TextConfig where
  raceName : TextPosition
  prizeAmount : TextPosition
  projectedPool : TextPosition
  day : TextPosition
  numberOfRaces : TextPosition
deriving Repr, DecidableEq

/-- The five per-field records of a config, in schema order. -/
def textConfigFields (c : TextConfig) : List TextPosition :=
  [c.raceName, c.prizeAmount, c.projectedPool, c.day, c.numberOfRaces]

/-- `textConfigSchema.safeParse` on a value of the right shape: all five
field records validate. -/
def textConfigValid (c : TextConfig) : Bool :=
  (textConfigFields c).all textPositionValid

/-- The object shape of `adContentSchema`: five string fields. -/
structure AdContent where
  raceName : String
  prizeAmount : String
  projectedPool : String
  day : String
  numberOfRaces : String
deriving Repr, DecidableEq

/-- `adContentSchema.safeParse`: each of the five strings is non-empty. -/
def adContentValid (a : AdContent) : Bool :=
  !a.raceName.isEmpty && !a.prizeAmount.isEmpty && !a.projectedPool.isEmpty &&
  !a.day.isEmpty && !a.numberOfRaces.isEmpty

/-! ## Storage rows (tables `text_position_configs`, `ad_contents`) -/

/-- A row of `text_position_configs` (type `SelectTextPositionConfig`). -/
structure StoredConfig where
  id : Nat
  name : String
  config : TextConfig
  createdAt : Nat
  updatedAt : Nat
deriving Repr, DecidableEq

/-- A row of `ad_contents` (type `SelectAdContent`). -/
structure StoredAdContent where
  id : Nat
  name : String
  raceName : String
  prizeAmount : String
  projectedPool : String
  day : String
  numberOfRaces : String
  createdAt : Nat
  updatedAt : Nat
deriving Repr, DecidableEq

/-- The database state behind `DatabaseStorage`: the two tables as row
lists plus the next value of each serial id column. -/
structure Store where
  configs : List StoredConfig
  nextId : Nat
  adContents : List StoredAdContent
  nextAdId : Nat
deriving Repr, DecidableEq

/-- A fresh database: no rows, serial counters at 1. -/
def emptyStore : Store := { configs := [], nextId := 1, adContents := [], nextAdId := 1 }

/-- `db.select().from(textPositionConfigs).where(eq(textPositionConfigs.name, name))`
followed by destructuring the first returned row. -/
def findConfig (s : Store) (name : String) : Option StoredConfig :=
  s.configs.find? (fun r => r.name == name)

/-- `db.select().from(adContents).where(eq(adContents.name, name))`
followed by destructuring the first returned row. -/
def findAdContent (s : Store) (name : String) : Option StoredAdContent :=
  s.adContents.find? (fun r => r.name == name)

/-! ## DatabaseStorage (src/server/storage.ts) -/

/-- `DatabaseStorage.saveTextPositionConfig`: if a row with this name
exists, `update ... set config, updatedAt = new Date() where eq(name)`
(the `where` clause touches every row with that name; `returning()`
yields the first); otherwise insert a new row whose two timestamp columns
both default to now. -/
def saveTextPositionConfig (s : Store) (now : Nat) (name : String) (config : TextConfig) :
    StoredConfig × Store :=
  match findConfig s name with
  | some existingRecord =>
      ({ existingRecord with config := config, updatedAt := now },
       { s with configs := s.configs.map (fun r =>
           if r.name == name then { r with config := config, updatedAt := now } else r) })
  | none =>
      let newRecord : StoredConfig :=
        { id := s.nextId, name := name, config := config, createdAt := now, updatedAt := now }
      (newRecord, { s with configs := s.configs ++ [newRecord], nextId := s.nextId + 1 })

/-- The hardcoded default of `DatabaseStorage.createDefaultConfig`. -/
def defaultTextConfig : TextConfig :=
  { raceName := { bottom := 200, left := some 100, center := none, alignment := "left",
                  fontFamily := "Montserrat-BoldItalic", fontSize := 60, color := "#1fd87b" }
    prizeAmount := { bottom := 600, left := some 200, center := none, alignment := "left",
                     fontFamily := "Montserrat-Black", fontSize := 120, color := "#ffffff" }
    projectedPool := { bottom := 700, left := some 540, center := none, alignment := "left",
                       fontFamily := "Montserrat-BoldItalic", fontSize := 48, color := "#1fd87b" }
    day := { bottom := 800, left := some 700, center := none, alignment := "left",
             fontFamily := "Montserrat-BoldItalic", fontSize := 48, color := "#1fd87b" }
    numberOfRaces := { bottom := 200, left := none, center := some 1340, alignment := "center",
                       fontFamily := "Montserrat-Bold", fontSize := 80, color := "#1fd87b" } }

/-- `DatabaseStorage.createDefaultConfig`: persist the hardcoded default
under `name` and return it. -/
def createDefaultConfig (s : Store) (now : Nat) (name : String) : TextConfig × Store :=
  (defaultTextConfig, (saveTextPositionConfig s now name defaultTextConfig).2)

/-- `DatabaseStorage.getTextPositionConfig`: return the stored config, or
seed and return the default when no row exists.  The declared TS return
type is `TextConfig | undefined`, hence the `Option`; the body never
actually produces `undefined`. -/
def getTextPositionConfig (s : Store) (now : Nat) (name : String) :
    Option TextConfig × Store :=
  match findConfig s name with
  | none =>
      let seeded := createDefaultConfig s now name
      (some seeded.1, seeded.2)
  | some record => (some record.config, s)

/-- `DatabaseStorage.listTextPositionConfigs`. -/
def listTextPositionConfigs (s : Store) : List StoredConfig :=
  s.configs

/-- `DatabaseStorage.saveAdContent`: same upsert pattern as
`saveTextPositionConfig`, over the `ad_contents` columns. -/
def saveAdContent (s : Store) (now : Nat) (name : String) (content : AdContent) :
    StoredAdContent × Store :=
  match findAdContent s name with
  | some existingRecord =>
      ({ existingRecord with
           raceName := content.raceName, prizeAmount := content.prizeAmount,
           projectedPool := content.projectedPool, day := content.day,
           numberOfRaces := content.numberOfRaces, updatedAt := now },
       { s with adContents := s.adContents.map (fun r =>
           if r.name == name then
             { r with raceName := content.raceName, prizeAmount := content.prizeAmount,
                      projectedPool := content.projectedPool, day := content.day,
                      numberOfRaces := content.numberOfRaces, updatedAt := now }
           else r) })
  | none =>
      let newRecord : StoredAdContent :=
        { id := s.nextAdId, name := name,
          raceName := content.raceName, prizeAmount := content.prizeAmount,
          projectedPool := content.projectedPool, day := content.day,
          numberOfRaces := content.numberOfRaces, createdAt := now, updatedAt := now }
      (newRecord, { s with adContents := s.adContents ++ [newRecord], nextAdId := s.nextAdId + 1 })

/-- The hardcoded default of `DatabaseStorage.createDefaultContent`. -/
def defaultAdContent : AdContent :=
  { raceName := "Emerald Stakes", prizeAmount := "50,000", projectedPool := "125,000",
    day := "SATURDAY", numberOfRaces := "8" }

/-- `DatabaseStorage.createDefaultContent`: persist the hardcoded default
content under `name` and return it. -/
def createDefaultContent (s : Store) (now : Nat) (name : String) : AdContent × Store :=
  (defaultAdContent, (saveAdContent s now name defaultAdContent).2)

/-- `DatabaseStorage.getAdContent`: return the stored content's five
columns, or seed and return the default when no row exists. -/
def getAdContent (s : Store) (now : Nat) (name : String) : Option AdContent × Store :=
  match findAdContent s name with
  | none =>
      let seeded := createDefaultContent s now name
      (some seeded.1, seeded.2)
  | some record =>
      (some { raceName := record.raceName, prizeAmount := record.prizeAmount,
              projectedPool := record.projectedPool, day := record.day,
              numberOfRaces := record.numberOfRaces }, s)

/-! ## Helper lemmas about row lookup -/

/-- After an upsert, looking the name up finds exactly the row the save
returned. -/
theorem findConfig_save (s : Store) (now : Nat) (name : String) (config : TextConfig) :
    findConfig (saveTextPositionConfig s now name config).2 name =
      some (saveTextPositionConfig s now name config).1 := by
  unfold findConfig saveTextPositionConfig
  cases h : findConfig s name with
  | none =>
      unfold findConfig at h
      simp [List.find?_append, h]
  | some r =>
      unfold findConfig at h
      simp only [List.find?_map]
      have hp : (fun x : StoredConfig => x.name == name) ∘
          (fun r : StoredConfig =>
            if r.name == name then { r with config := config, updatedAt := now } else r) =
          fun r : StoredConfig => r.name == name := by
        funext x
        by_cases hx : x.name = name <;> simp [hx]
      rw [hp, h]
      have hr : r.name = name := by
        have := List.find?_some h
        simpa using this
      simp [hr]

/-- The row returned by an upsert carries the saved payload. -/
theorem saveTextPositionConfig_fst_config (s : Store) (now : Nat) (name : String)
    (config : TextConfig) :
    (saveTextPositionConfig s now name config).1.config = config := by
  unfold saveTextPositionConfig
  cases h : findConfig s name <;> simp

/-! ## Claim theorems: Config Store -/

/-- C1: for a name with no stored row, `getTextPositionConfig` returns the
hardcoded default (whose raceName style is `\x7bbottom 200, left 100,
alignment left, Montserrat-BoldItalic, 60, #1fd87b\x7d`), persists that
default as a new row, and a second `get` with no intervening save returns
the same values and leaves the store untouched. -/
theorem claim_C1_default_seeding (s : Store) (now now2 : Nat) (name : String)
    (h : findConfig s name = none) :
    (getTextPositionConfig s now name).1 = some defaultTextConfig ∧
    defaultTextConfig.raceName =
      { bottom := 200, left := some 100, center := none, alignment := "left",
        fontFamily := "Montserrat-BoldItalic", fontSize := 60, color := "#1fd87b" } ∧
    findConfig (getTextPositionConfig s now name).2 name =
      some { id := s.nextId, name := name, config := defaultTextConfig,
             createdAt := now, updatedAt := now } ∧
    getTextPositionConfig (getTextPositionConfig s now name).2 now2 name =
      (some defaultTextConfig, (getTextPositionConfig s now name).2) := by
  have hsave := findConfig_save s now name defaultTextConfig
  have hfst : (saveTextPositionConfig s now name defaultTextConfig).1 =
      { id := s.nextId, name := name, config := defaultTextConfig,
        createdAt := now, updatedAt := now } := by
    unfold saveTextPositionConfig
    rw [h]
  refine ⟨?_, rfl, ?_, ?_⟩
  · simp [getTextPositionConfig, h, createDefaultConfig]
  · simp only [getTextPositionConfig, h, createDefaultConfig]
    rw [hsave, hfst]
  · simp only [getTextPositionConfig, h, createDefaultConfig]
    rw [hsave, hfst]

/-- C1 witness: seeding from the empty store under the slot "default". -/
theorem claim_C1_default_seeding_witness :
    (getTextPositionConfig emptyStore 5 "default").1 = some defaultTextConfig ∧
    findConfig (getTextPositionConfig emptyStore 5 "default").2 "default" =
      some { id := 1, name := "default", config := defaultTextConfig,
             createdAt := 5, updatedAt := 5 } :=
  ⟨(claim_C1_default_seeding emptyStore 5 6 "default" rfl).1,
   (claim_C1_default_seeding emptyStore 5 6 "default" rfl).2.2.1⟩

/-! ## HTTP layer (registerRoutes, shared-canvas.tsx second embedded file) -/

/-- The outcome of an Express handler in this API: a 200 body, a 400
validation rejection, a 404, or a 500. -/
inductive ApiResponse (α : Type) where
  | ok (body : α)
  | badRequest
  | notFound
  | serverError
deriving Repr, DecidableEq

/-- HTTP methods used by `registerRoutes`. -/
inductive Method where
  | get
  | post
deriving Repr, DecidableEq

/-- The routes `registerRoutes` installs on the Express app, in
registration order. -/
def registeredRoutes : List (Method × String) :=
  [(Method.get, "/api/text-config/:name"),
   (Method.post, "/api/text-config/:name"),
   (Method.get, "/api/text-configs")]

/-- The GET /api/text-config/:name handler: fetch via
`storage.getTextPositionConfig`; 404 when it yields no config, else 200
with the config.  (The catch-all 500 branch fires only on a thrown
backend error, which the in-memory store model does not produce.) -/
def handleGetTextConfig (s : Store) (now : Nat) (name : String) :
    ApiResponse TextConfig × Store :=
  match getTextPositionConfig s now name with
  | (none, s') => (ApiResponse.notFound, s')
  | (some config, s') => (ApiResponse.ok config, s')

/-- The POST /api/text-config/:name handler: `textConfigSchema.safeParse`
on the body; 400 without touching storage when validation fails, else
save and return the persisted row. -/
def handlePostTextConfig (s : Store) (now : Nat) (name : String) (body : TextConfig) :
    ApiResponse StoredConfig × Store :=
  if textConfigValid body then
    let saved := saveTextPositionConfig s now name body
    (ApiResponse.ok saved.1, saved.2)
  else
    (ApiResponse.badRequest, s)

/-! ## Claim theorems: HTTP layer -/

/-- C3: `getTextPositionConfig` always yields a config (stored or freshly
seeded), so the GET /api/text-config/:name handler always answers 200 —
its 404 branch is unreachable. -/
theorem claim_C3_no_notFound (s : Store) (now : Nat) (name : String) :
    ∃ config s', handleGetTextConfig s now name = (ApiResponse.ok config, s') := by
  unfold handleGetTextConfig getTextPositionConfig
  cases h : findConfig s name <;> simp

/-- A record invalid on fontSize bounds or on the color regex fails
`textPositionSchema`. -/
theorem textPositionValid_false (p : TextPosition)
    (h : p.fontSize < 8 ∨ 300 < p.fontSize ∨ colorValid p.color = false) :
    textPositionValid p = false := by
  unfold textPositionValid
  rcases h with h | h | h
  · have : decide (8 ≤ p.fontSize) = false := by simpa using not_le.mpr h
    simp [this]
  · have : decide (p.fontSize ≤ 300) = false := by simpa using not_le.mpr h
    simp [this]
  · simp [h]

/-- C4: a posted layout in which some field has fontSize outside [8,300]
or a color failing `^#[0-9a-fA-F]\x7b6\x7d$` is rejected with 400 and the
store is returned unchanged. -/
theorem claim_C4_validation_rejects (s : Store) (now : Nat) (name : String)
    (body : TextConfig)
    (h : ∃ p ∈ textConfigFields body,
        p.fontSize < 8 ∨ 300 < p.fontSize ∨ colorValid p.color = false) :
    handlePostTextConfig s now name body = (ApiResponse.badRequest, s) := by
  obtain ⟨p, hmem, hbad⟩ := h
  have hinvalid : textConfigValid body = false := by
    unfold textConfigValid
    rw [List.all_eq_false]
    exact ⟨p, hmem, by simp [textPositionValid_false p hbad]⟩
  simp [handlePostTextConfig, hinvalid]

/-- A config whose raceName fontSize is 500, outside the schema bounds. -/
def oversizedConfig : TextConfig :=
  { defaultTextConfig with
      raceName := { defaultTextConfig.raceName with fontSize := 500 } }

/-- C4 witness: posting the oversized config to the empty store yields
400 and leaves the store empty. -/
theorem claim_C4_validation_rejects_witness :
    handlePostTextConfig emptyStore 3 "default" oversizedConfig =
      (ApiResponse.badRequest, emptyStore) :=
  claim_C4_validation_rejects emptyStore 3 "default" oversizedConfig
    ⟨oversizedConfig.raceName, by simp [textConfigFields],
     Or.inr (Or.inl (by decide))⟩

/-- C5: `saveTextPositionConfig` upserts — on an existing name it returns
the row with the new payload and a bumped `updatedAt`, keeping `id`,
`name` and `createdAt`; on a new name it inserts a row with both
timestamps set to now; and after two sequential saves to one name a get
returns only the second payload (last-write-wins). -/
theorem claim_C5_upsert_last_write_wins (s : Store) (t1 t2 tg : Nat) (name : String)
    (c1 c2 : TextConfig) :
    (∀ r, findConfig s name = some r →
        (saveTextPositionConfig s t1 name c1).1 =
          { r with config := c1, updatedAt := t1 }) ∧
    (findConfig s name = none →
        (saveTextPositionConfig s t1 name c1).1 =
          { id := s.nextId, name := name, config := c1, createdAt := t1, updatedAt := t1 }) ∧
    (getTextPositionConfig
        (saveTextPositionConfig (saveTextPositionConfig s t1 name c1).2 t2 name c2).2
        tg name).1 = some c2 := by
  refine ⟨?_, ?_, ?_⟩
  · intro r hr
    unfold saveTextPositionConfig
    rw [hr]
  · intro hnone
    unfold saveTextPositionConfig
    rw [hnone]
  · have h2 := findConfig_save (saveTextPositionConfig s t1 name c1).2 t2 name c2
    unfold getTextPositionConfig
    rw [h2]
    simp [saveTextPositionConfig_fst_config]

/-- C5 witness: two saves of configs differing in raceName fontSize to
the slot "default" of the empty store; the insert sets both timestamps
to the first clock value, and the final get sees only the second config. -/
theorem claim_C5_upsert_last_write_wins_witness :
    (saveTextPositionConfig emptyStore 1 "default" defaultTextConfig).1 =
      { id := 1, name := "default", config := defaultTextConfig,
        createdAt := 1, updatedAt := 1 } ∧
    (getTextPositionConfig
        (saveTextPositionConfig
          (saveTextPositionConfig emptyStore 1 "default" defaultTextConfig).2
          2 "default" oversizedConfig).2
        3 "default").1 = some oversizedConfig :=
  ⟨(claim_C5_upsert_last_write_wins emptyStore 1 2 3 "default" defaultTextConfig
      oversizedConfig).2.1 rfl,
   (claim_C5_upsert_last_write_wins emptyStore 1 2 3 "default" defaultTextConfig
      oversizedConfig).2.2⟩

/-! ## CanvasRenderer (src/unnamed/part_001) -/

/-- `CanvasRenderer.getFontString`: the fixed family-name lookup; any
unrecognised family falls through to the plain default string. -/
def getFontString (fontFamily : String) (fontSize : Int) : String :=
  if fontFamily == "Montserrat-Bold" then
    "bold " ++ toString fontSize ++ "px Montserrat, Arial, sans-serif"
  else if fontFamily == "Montserrat-BoldItalic" then
    "italic bold " ++ toString fontSize ++ "px Montserrat, Arial, sans-serif"
  else if fontFamily == "Montserrat-Black" then
    "900 " ++ toString fontSize ++ "px Montserrat, Arial, sans-serif"
  else if fontFamily == "Montserrat-Regular" then
    toString fontSize ++ "px Montserrat, Arial, sans-serif"
  else
    toString fontSize ++ "px Montserrat, Arial, sans-serif"

/-- One `ctx.fillText` call together with the context state the renderer
sets just before it (fillStyle, font, textAlign; textBaseline is always
"bottom", so `y` is the bottom edge of the glyphs). `x` is optional
because the coordinate picked by `renderTextField` can be an absent
config field (JS `undefined`). -/
structure TextDraw where
  text : String
  font : String
  color : String
  align : String
  x : Option Int
  y : Int
deriving Repr, DecidableEq

/-- `CanvasRenderer.renderTextField`: set color, font and alignment from
the field config, pick `center` as x when alignment is "center" and
`left` otherwise, and draw at y = `bottom`. -/
def renderTextField (text : String) (config : TextPosition) : TextDraw :=
  { text := text
    font := getFontString config.fontFamily config.fontSize
    color := config.color
    align := config.alignment
    x := if config.alignment == "center" then config.center else config.left
    y := config.bottom }

/-- The drawing operations issued to the 2D context. -/
inductive DrawOp where
  | fillRect (color : String) (x y w h : Int)
  | gradientFillRect (color0 color1 : String) (x y w h : Int)
  | clearRect (x y w h : Int)
  | drawImage (image : String) (x y w h : Int)
  | fillText (draw : TextDraw)
deriving Repr, DecidableEq

/-- The canvas plus renderer state: the fixed element dimensions, the
`templateImage` field, and the operations drawn so far. -/
structure CanvasState where
  width : Int
  height : Int
  templateImage : Option String
  ops : List DrawOp
deriving Repr, DecidableEq

/-- The operations `CanvasRenderer.createFallbackTemplate` draws on a
`w × h` canvas: the solid brand-green fill, the two-stop gradient
overlay, and the centered low-opacity "TEMPLATE" watermark. -/
def fallbackOps (w h : Int) : List DrawOp :=
  [DrawOp.fillRect "#22c55e" 0 0 w h,
   DrawOp.gradientFillRect "#16a34a" "#22c55e" 0 0 w h,
   DrawOp.fillText
     { text := "TEMPLATE", font := "bold 120px Montserrat, Arial, sans-serif",
       color := "rgba(255, 255, 255, 0.1)", align := "center",
       x := some (w / 2), y := h / 2 }]

/-- `CanvasRenderer.createFallbackTemplate`. -/
def createFallbackTemplate (st : CanvasState) : CanvasState :=
  { st with ops := st.ops ++ fallbackOps st.width st.height }

/-- `CanvasRenderer.renderTemplate`: clear and draw the loaded template
image scaled to the canvas, or fall back when none is loaded. -/
def renderTemplate (st : CanvasState) : CanvasState :=
  match st.templateImage with
  | some image =>
      { st with ops := st.ops ++
          [DrawOp.clearRect 0 0 st.width st.height,
           DrawOp.drawImage image 0 0 st.width st.height] }
  | none => createFallbackTemplate st

/-- `CanvasRenderer.loadTemplate`: `success` tells whether the image's
`onload` or `onerror` handler fires.  `onload` stores the image and
renders it; `onerror` draws the fallback.  Both call `resolve()`; the
promise's `reject` is never invoked, so the result is always `ok`. -/
def loadTemplate (success : Bool) (image : String) (st : CanvasState) :
    CanvasState × Except String Unit :=
  if success then
    (renderTemplate { st with templateImage := some image }, Except.ok ())
  else
    (createFallbackTemplate st, Except.ok ())

/-- The hardcoded config `CanvasRenderer.renderWithText` falls back to
when it is called without one. -/
def rendererDefaultConfig : TextConfig :=
  { raceName := { bottom := 200, left := some 100, center := none, alignment := "left",
                  fontFamily := "Montserrat-BoldItalic", fontSize := 60, color := "#1fd87b" }
    prizeAmount := { bottom := 600, left := some 200, center := none, alignment := "left",
                     fontFamily := "Montserrat-Black", fontSize := 120, color := "#ffffff" }
    projectedPool := { bottom := 700, left := some 540, center := none, alignment := "left",
                       fontFamily := "Montserrat-BoldItalic", fontSize := 48, color := "#1fd87b" }
    day := { bottom := 800, left := some 700, center := none, alignment := "left",
             fontFamily := "Montserrat-BoldItalic", fontSize := 48, color := "#1fd87b" }
    numberOfRaces := { bottom := 200, left := none, center := some 1340, alignment := "center",
                       fontFamily := "Montserrat-Bold", fontSize := 80, color := "#1fd87b" } }

/-- The five `renderTextField` calls at the end of
`CanvasRenderer.renderWithText`, in source order: raceName verbatim, the
template literals prefixing "$" to prizeAmount and projectedPool, then
day and numberOfRaces verbatim. -/
def renderFields (formData : AdContent) (config : TextConfig) (st : CanvasState) :
    CanvasState :=
  { st with ops := st.ops ++
      [DrawOp.fillText (renderTextField formData.raceName config.raceName),
       DrawOp.fillText (renderTextField ("$" ++ formData.prizeAmount) config.prizeAmount),
       DrawOp.fillText (renderTextField ("$" ++ formData.projectedPool) config.projectedPool),
       DrawOp.fillText (renderTextField formData.day config.day),
       DrawOp.fillText (renderTextField formData.numberOfRaces config.numberOfRaces)] }

/-- `CanvasRenderer.renderWithText`: redraw a clean template, set
textBaseline to bottom, take the provided config or the hardcoded
default, and render the five fields. -/
def renderWithText (formData : AdContent) (textConfig : Option TextConfig)
    (st : CanvasState) : CanvasState :=
  renderFields formData (textConfig.getD rendererDefaultConfig) (renderTemplate st)

/-- The texts of the fillText operations in a draw list, in order. -/
def drawnTexts (ops : List DrawOp) : List String :=
  ops.filterMap (fun op =>
    match op with
    | DrawOp.fillText draw => some draw.text
    | _ => none)

/-! ## Renderer invariant helpers -/

/-- `renderTemplate` never changes the canvas width. -/
theorem renderTemplate_width (st : CanvasState) : (renderTemplate st).width = st.width := by
  cases h : st.templateImage <;> simp [renderTemplate, createFallbackTemplate, h]

/-- `renderTemplate` never changes the canvas height. -/
theorem renderTemplate_height (st : CanvasState) : (renderTemplate st).height = st.height := by
  cases h : st.templateImage <;> simp [renderTemplate, createFallbackTemplate, h]

/-! ## Claim theorems: Compositor -/

/-- C6: with alignment "center" the renderer anchors at the record's
`center` and its output is unchanged by any `left` value in the record;
with alignment "left" it anchors at `left` and is unchanged by any
`center` value. -/
theorem claim_C6_alignment_anchor (text : String) (config : TextPosition)
    (l c : Option Int) :
    (config.alignment = "center" →
       (renderTextField text config).x = config.center ∧
       renderTextField text { config with left := l } = renderTextField text config) ∧
    (config.alignment = "left" →
       (renderTextField text config).x = config.left ∧
       renderTextField text { config with center := c } = renderTextField text config) := by
  constructor <;> intro h <;> simp [renderTextField, h]

/-- C6 witness: the default numberOfRaces style (center-aligned) anchors
at its center x, the default raceName style (left-aligned) at its left x. -/
theorem claim_C6_alignment_anchor_witness :
    (renderTextField "8" defaultTextConfig.numberOfRaces).x = some 1340 ∧
    (renderTextField "Emerald Stakes" defaultTextConfig.raceName).x = some 100 :=
  ⟨((claim_C6_alignment_anchor "8" defaultTextConfig.numberOfRaces none none).1 rfl).1,
   ((claim_C6_alignment_anchor "Emerald Stakes" defaultTextConfig.raceName none none).2 rfl).1⟩

/-- C7: `loadTemplate` resolves (never rejects) whether or not the image
loads, leaves the canvas dimensions untouched, on failure draws exactly
the solid-green gradient-plus-"TEMPLATE" placeholder at full canvas size,
and text compositing afterwards also preserves the canvas dimensions. -/
theorem claim_C7_fallback_never_raises (success : Bool) (image : String)
    (st : CanvasState) :
    (loadTemplate success image st).2 = Except.ok () ∧
    (loadTemplate success image st).1.width = st.width ∧
    (loadTemplate success image st).1.height = st.height ∧
    (success = false →
       (loadTemplate success image st).1.ops = st.ops ++ fallbackOps st.width st.height) ∧
    (∀ content textConfig,
       (renderWithText content textConfig st).width = st.width ∧
       (renderWithText content textConfig st).height = st.height) := by
  refine ⟨?_, ?_, ?_, ?_, ?_⟩
  · cases success <;> simp [loadTemplate]
  · cases success <;>
      simp [loadTemplate, renderTemplate_width, createFallbackTemplate]
  · cases success <;>
      simp [loadTemplate, renderTemplate_height, createFallbackTemplate]
  · intro h
    subst h
    simp [loadTemplate, createFallbackTemplate]
  · intro content textConfig
    constructor
    · simp [renderWithText, renderFields, renderTemplate_width]
    · simp [renderWithText, renderFields, renderTemplate_height]

/-- C7 witness: a failed load on a fresh 1920×1080 canvas resolves and
leaves exactly the placeholder operations. -/
theorem claim_C7_fallback_never_raises_witness :
    (loadTemplate false "/template.png"
        { width := 1920, height := 1080, templateImage := none, ops := [] }).2 =
      Except.ok () ∧
    (loadTemplate false "/template.png"
        { width := 1920, height := 1080, templateImage := none, ops := [] }).1.ops =
      [] ++ fallbackOps 1920 1080 :=
  ⟨(claim_C7_fallback_never_raises false "/template.png"
      { width := 1920, height := 1080, templateImage := none, ops := [] }).1,
   (claim_C7_fallback_never_raises false "/template.png"
      { width := 1920, height := 1080, templateImage := none, ops := [] }).2.2.2.1 rfl⟩

/-- C8: `renderWithText` appends exactly five text draws whose strings
are raceName, "$" ++ prizeAmount, "$" ++ projectedPool, day and
numberOfRaces — the "$" prefix is added at render time to precisely the
two money fields — and the hardcoded default stored payload itself
contains no "$" anywhere. -/
theorem claim_C8_dollar_prefix (content : AdContent) (textConfig : Option TextConfig)
    (st : CanvasState) :
    (∃ tail, (renderWithText content textConfig st).ops = (renderTemplate st).ops ++ tail ∧
       drawnTexts tail = [content.raceName, "$" ++ content.prizeAmount,
         "$" ++ content.projectedPool, content.day, content.numberOfRaces]) ∧
    [defaultAdContent.raceName, defaultAdContent.prizeAmount, defaultAdContent.projectedPool,
     defaultAdContent.day, defaultAdContent.numberOfRaces].all
      (fun s => !(s.data.contains '$')) = true := by
  refine ⟨⟨_, rfl, rfl⟩, by decide⟩

/-- C9: `getFontString` realises the fixed font lookup table — Regular is
plain at the requested size, Bold is bold, BoldItalic is italic bold,
Black is weight 900 — and every family name outside the table falls back
to the same plain descriptor instead of failing. -/
theorem claim_C9_font_lookup (fontSize : Int) (family : String)
    (h1 : family ≠ "Montserrat-Regular") (h2 : family ≠ "Montserrat-Bold")
    (h3 : family ≠ "Montserrat-BoldItalic") (h4 : family ≠ "Montserrat-Black") :
    getFontString "Montserrat-Regular" fontSize =
      toString fontSize ++ "px Montserrat, Arial, sans-serif" ∧
    getFontString "Montserrat-Bold" fontSize =
      "bold " ++ toString fontSize ++ "px Montserrat, Arial, sans-serif" ∧
    getFontString "Montserrat-BoldItalic" fontSize =
      "italic bold " ++ toString fontSize ++ "px Montserrat, Arial, sans-serif" ∧
    getFontString "Montserrat-Black" fontSize =
      "900 " ++ toString fontSize ++ "px Montserrat, Arial, sans-serif" ∧
    getFontString family fontSize =
      toString fontSize ++ "px Montserrat, Arial, sans-serif" := by
  have e1 : (family == "Montserrat-Regular") = false := beq_eq_false_iff_ne.mpr h1
  have e2 : (family == "Montserrat-Bold") = false := beq_eq_false_iff_ne.mpr h2
  have e3 : (family == "Montserrat-BoldItalic") = false := beq_eq_false_iff_ne.mpr h3
  have e4 : (family == "Montserrat-Black") = false := beq_eq_false_iff_ne.mpr h4
  refine ⟨rfl, rfl, rfl, rfl, ?_⟩
  simp [getFontString, e1, e2, e3, e4]

/-- C9 witness: an unknown family ("Arial") gets the plain descriptor;
"Montserrat-Black" gets weight 900. -/
theorem claim_C9_font_lookup_witness :
    getFontString "Arial" 20 = "20px Montserrat, Arial, sans-serif" ∧
    getFontString "Montserrat-Black" 120 = "900 120px Montserrat, Arial, sans-serif" :=
  ⟨(claim_C9_font_lookup 20 "Arial" (by decide) (by decide) (by decide) (by decide)).2.2.2.2,
   (claim_C9_font_lookup 120 "Arial" (by decide) (by decide) (by decide) (by decide)).2.2.2.1⟩

/-! ## Claim theorems: ad-content surface (C2) and schema gap (C10) -/

/-- After `saveAdContent` into a store with no row for the name, the name
looks up to the freshly inserted row. -/
theorem findAdContent_save_new (s : Store) (now : Nat) (name : String)
    (content : AdContent) (h : findAdContent s name = none) :
    findAdContent (saveAdContent s now name content).2 name =
      some { id := s.nextAdId, name := name,
             raceName := content.raceName, prizeAmount := content.prizeAmount,
             projectedPool := content.projectedPool, day := content.day,
             numberOfRaces := content.numberOfRaces, createdAt := now, updatedAt := now } := by
  unfold saveAdContent
  rw [h]
  unfold findAdContent at h ⊢
  simp [List.find?_append, h]

/-- C2 counterexample: `registerRoutes` installs no GET
/api/ad-content/:name route — the claimed endpoint is absent from the
HTTP surface. -/
theorem claim_C2_counterexample :
    registeredRoutes.contains (Method.get, "/api/ad-content/:name") = false := by
  decide

/-- C2 amended: the storage layer's `getAdContent` does default-seed — on
a never-saved name it returns the hardcoded default AdContent and
persists it as a new row — but no /api/ad-content route is registered,
so the HTTP surface does not expose it. -/
theorem claim_C2_ad_content_not_exposed (s : Store) (now : Nat) (name : String)
    (h : findAdContent s name = none) :
    registeredRoutes.contains (Method.get, "/api/ad-content/:name") = false ∧
    (getAdContent s now name).1 = some defaultAdContent ∧
    findAdContent (getAdContent s now name).2 name =
      some { id := s.nextAdId, name := name,
             raceName := defaultAdContent.raceName,
             prizeAmount := defaultAdContent.prizeAmount,
             projectedPool := defaultAdContent.projectedPool,
             day := defaultAdContent.day,
             numberOfRaces := defaultAdContent.numberOfRaces,
             createdAt := now, updatedAt := now } := by
  refine ⟨by decide, ?_, ?_⟩
  · simp [getAdContent, h, createDefaultContent]
  · simp only [getAdContent, h, createDefaultContent]
    exact findAdContent_save_new s now name defaultAdContent h

/-- C2 witness: seeding ad content from the empty store. -/
theorem claim_C2_ad_content_not_exposed_witness :
    (getAdContent emptyStore 7 "default").1 = some defaultAdContent ∧
    registeredRoutes.contains (Method.get, "/api/ad-content/:name") = false :=
  ⟨(claim_C2_ad_content_not_exposed emptyStore 7 "default" rfl).2.1,
   (claim_C2_ad_content_not_exposed emptyStore 7 "default" rfl).1⟩

/-- A field record that is center-aligned but carries no `center` key. -/
def centerlessPosition : TextPosition :=
  { bottom := 200, left := some 100, center := none, alignment := "center",
    fontFamily := "Montserrat-Bold", fontSize := 80, color := "#1fd87b" }

/-- A full layout whose numberOfRaces field is the centerless record. -/
def centerlessConfig : TextConfig :=
  { defaultTextConfig with numberOfRaces := centerlessPosition }

/-- C10: the schema never ties `left`/`center` to `alignment`: the
centerless record passes `textPositionSchema`, the whole layout passes
`textConfigSchema`, the POST handler persists it as-is, and rendering
that field anchors at the absent value (x = none, JS `undefined`). -/
theorem claim_C10_schema_gap :
    textPositionValid centerlessPosition = true ∧
    textConfigValid centerlessConfig = true ∧
    handlePostTextConfig emptyStore 1 "default" centerlessConfig =
      (ApiResponse.ok { id := 1, name := "default", config := centerlessConfig,
                        createdAt := 1, updatedAt := 1 },
       { configs := [{ id := 1, name := "default", config := centerlessConfig,
                       createdAt := 1, updatedAt := 1 }],
         nextId := 2, adContents := [], nextAdId := 1 }) ∧
    (renderTextField "6" centerlessPosition).x = none := by
  refine ⟨by decide, by decide, rfl, rfl⟩
